import Mathlib

/-!
Shallow embedding of the `py_message` notification-dispatch library
(`src/py_message/__init__.py`) and verification of its specification.

Modelling conventions:
* Python exceptions are modelled with `Except MsgError`; the distinct
  `ValueError` / `EnvironmentError` raises of the source are told apart by
  the `MsgError` constructor carrying (an abstraction of) the source's
  message text.
* The process environment (`os.environ.get`) is an explicit parameter
  `env : String → Option String`.
* External transports (Azure `SmsClient.send`, `requests.post`, SMTP) are
  explicit function parameters; a dispatch call "contacts the transport"
  exactly when its result depends on that parameter.
* Python digit characters (regex `\d`) are modelled as the ASCII decimal
  digits via `Char.isDigit`.
* Log statements are modelled as a returned `List LogEntry`, with the
  message text lightly abstracted from the source's f-strings.
-/

/-- Abstraction of the exceptions raised by the source: `invalidPhoneNumber`
is the `ValueError` raised by `_validate_phone_number`, `missingRecipients`
the `ValueError` raised by `send_sms` for absent recipients, and
`missingCredentials` the `EnvironmentError` raised by `send_sms` for absent
configuration keys (carrying the source's message naming the key). -/
inductive MsgError where
  | invalidPhoneNumber (number : String)
  | missingRecipients
  | missingCredentials (message : String)
deriving DecidableEq, Repr

/-- A log record: `logging.debug` or `logging.error` with a message. -/
inductive LogEntry where
  | debug (message : String)
  | error (message : String)
deriving DecidableEq, Repr

instance {ε α : Type} [DecidableEq ε] [DecidableEq α] : DecidableEq (Except ε α) :=
  fun x y =>
    match x, y with
    | .ok a, .ok b =>
      if h : a = b then .isTrue (congrArg Except.ok h)
      else .isFalse (fun hc => h (Except.ok.inj hc))
    | .error a, .error b =>
      if h : a = b then .isTrue (congrArg Except.error h)
      else .isFalse (fun hc => h (Except.error.inj hc))
    | .ok _, .error _ => .isFalse (fun hc => Except.noConfusion hc)
    | .error _, .ok _ => .isFalse (fun hc => Except.noConfusion hc)

/-- Concatenation of a list of character runs, as Python `"".join(matches)`. -/
def listJoin (ls : List (List Char)) : List Char :=
  ls.foldr (· ++ ·) []

/-- Worker for `digitRuns`: `acc` is the current (in-order) run of digits
being accumulated. -/
def digitRunsAux : List Char → List Char → List (List Char)
  | [], acc => if acc = [] then [] else [acc]
  | c :: rest, acc =>
    if c.isDigit then digitRunsAux rest (acc ++ [c])
    else (if acc = [] then [] else [acc]) ++ digitRunsAux rest []

/-- All maximal runs of digit characters of a character list, in order:
the model of Python `re.findall(r"\d+", phone_number)`. -/
def digitRuns (cs : List Char) : List (List Char) :=
  digitRunsAux cs []

/-- The in-order concatenation of all maximal digit runs of a string
(`"".join(re.findall(r"\d+", s))`). -/
def digitConcat (s : String) : List Char :=
  listJoin (digitRuns s.data)

/-- Model of `_validate_phone_number` (`__init__.py` lines 137-159): pluck
out all runs of digits; if there was at least one match, replace the input
by their concatenation (otherwise the raw input survives); reject when the
resulting length is outside 10..12; prepend the `1` US country code to
10-digit numbers; prepend `+`. -/
def _validate_phone_number (s : String) : Except MsgError String :=
  let found := digitRuns s.data
  let pn : List Char := if found.length ≠ 0 then listJoin found else s.data
  if pn.length < 10 ∨ pn.length > 12 then
    .error (.invalidPhoneNumber (String.mk pn))
  else
    let pn : List Char := if pn.length = 10 then '1' :: pn else pn
    .ok (String.mk ('+' :: pn))

/-- `true` exactly on strings matching the canonical shape
`^\+\d\x7b11,12\x7d$`: a leading `+` followed by 11 or 12 digit characters
and nothing else. -/
def isCanonicalPhone (r : String) : Bool :=
  match r.data with
  | '+' :: t => t.all (·.isDigit) && decide (11 ≤ t.length) && decide (t.length ≤ 12)
  | _ => false

/-- A `Union[str, list[str]]` recipients value. -/
inductive Recipients where
  | str (s : String)
  | list (l : List String)
deriving DecidableEq, Repr

/-- The arguments with which `send_gmail` delegates to `send_email`
(`__init__.py` lines 124-132).  `sender`/`password` are `Option` because the
Python call may pass `None` through. -/
structure EmailCall where
  smtp_host : String
  sender : Option String
  password : Option String
  recipients : Recipients
  body : String
  subject : Option String
  smtp_port : Nat
deriving DecidableEq, Repr

/-- The `logging.error` text of `send_gmail` when no credentials resolve
(`__init__.py` lines 118-121). -/
def gmailMissingCredsMsg : String :=
  "Cannot retrieve GMail credentials from environment variables, and no GMail credentials were provided, so cannot send email."

/-- Model of `send_gmail` (`__init__.py` lines 85-134): when both `sender`
and `password` are explicitly provided they are used (with a debug log);
otherwise BOTH are read from `GMAIL_USERNAME` / `GMAIL_PASSWORD`.  If either
resolved value is still absent an error is logged, and the call
unconditionally delegates to `send_email` with host `smtp.gmail.com`,
port 465 — it never raises, hence always `.ok`. -/
def send_gmail (recipients : Recipients) (body : String) (subject : Option String)
    (sender password : Option String) (env : String → Option String) :
    Except MsgError (EmailCall × List LogEntry) :=
  let explicit := sender.isSome && password.isSome
  let sender := if explicit then sender else env "GMAIL_USERNAME"
  let password := if explicit then password else env "GMAIL_PASSWORD"
  let logs :=
    (if explicit then
      [LogEntry.debug "Sending GMail using sender and password provided as arguments."]
     else []) ++
    (if sender.isNone || password.isNone then [LogEntry.error gmailMissingCredsMsg] else [])
  .ok ({ smtp_host := "smtp.gmail.com", sender := sender, password := password,
         recipients := recipients, body := body, subject := subject,
         smtp_port := 465 }, logs)

/-- Left-to-right effectful map over `Except`, stopping at the first error:
the semantics of the Python list comprehension
`[_validate_phone_number(ph) for ph in recipients]`. -/
def mapMExcept {ε α β : Type} (f : α → Except ε β) : List α → Except ε (List β)
  | [] => .ok []
  | x :: xs =>
    match f x with
    | .error e => .error e
    | .ok y => (mapMExcept f xs).map (y :: ·)

/-- Recipient normalization of `send_sms` (`__init__.py` lines 188-192): a
single string is validated directly, a list element-wise (first failure
propagates). -/
def normalizeRecipients : Recipients → Except MsgError Recipients
  | .str s => (_validate_phone_number s).map .str
  | .list l => (mapMExcept _validate_phone_number l).map .list

/-- Recipient resolution of `send_sms` (`__init__.py` lines 180-182): the
explicit argument when present, else the `SMS_NUMBER` environment value (a
single string). -/
def resolveRecipients (recipients : Option Recipients)
    (env : String → Option String) : Option Recipients :=
  match recipients with
  | some r => some r
  | none => (env "SMS_NUMBER").map .str

/-- One per-recipient result from the Azure SMS transport
(`azure.communication.sms.SmsSendResult`). -/
structure SmsSendResult where
  to_number : String
  successful : Bool
  error_message : Option String
deriving DecidableEq, Repr

/-- `EnvironmentError` text for an absent `AZURE_SMS_CONNECTION_STRING`
(`__init__.py` lines 197-200). -/
def smsConnMissingMsg : String :=
  "Cannot load Azure SMS connection string from environment variables."

/-- `EnvironmentError` text for an absent `AZURE_SMS_NUMBER`
(`__init__.py` lines 205-208). -/
def smsNumberMissingMsg : String :=
  "Cannot load Azure SMS number from environment variables."

/-- The per-result logging loop of `send_sms` (`__init__.py` lines 222-228):
an error log for each unsuccessful result, a debug log for each success. -/
def smsLogs (body : String) (rs : List SmsSendResult) : List LogEntry :=
  rs.map fun r =>
    if r.successful then
      LogEntry.debug ("SMS Message " ++ body ++ " successfully sent to " ++ r.to_number ++ ".")
    else
      LogEntry.error ("Encountered error while sending SMS message to " ++ r.to_number ++ ": "
        ++ r.error_message.getD "None")

/-- The SMS transport collaborator: connection string → sender number →
recipients → message → per-recipient results (`SmsClient.from_connection_string`
followed by `client.send`). -/
def SmsTransport : Type :=
  String → String → Recipients → String → List SmsSendResult

/-- What a completed `send_sms` call did: the connection string and
normalized sender number used, the normalized recipients, the transport
responses (returned to the caller) and the logs. -/
structure SmsOutcome where
  conn : String
  from_number : String
  to_recips : Recipients
  responses : List SmsSendResult
  logs : List LogEntry
deriving DecidableEq, Repr

/-- Model of `send_sms` (`__init__.py` lines 162-230): resolve recipients
(raise for none), normalize each recipient, load and require
`AZURE_SMS_CONNECTION_STRING` and `AZURE_SMS_NUMBER`, normalize the sender
number, then contact the transport once and return its responses, logging
per-result outcomes. -/
def send_sms (transport : SmsTransport) (body : String)
    (recipients : Option Recipients) (env : String → Option String) :
    Except MsgError SmsOutcome :=
  match resolveRecipients recipients env with
  | none => .error .missingRecipients
  | some recips =>
    match normalizeRecipients recips with
    | .error e => .error e
    | .ok normalized =>
      match env "AZURE_SMS_CONNECTION_STRING" with
      | none => .error (.missingCredentials smsConnMissingMsg)
      | some conn =>
        match env "AZURE_SMS_NUMBER" with
        | none => .error (.missingCredentials smsNumberMissingMsg)
        | some num =>
          match _validate_phone_number num with
          | .error e => .error e
          | .ok fromNum =>
            let responses := transport conn fromNum normalized body
            .ok { conn := conn, from_number := fromNum, to_recips := normalized,
                  responses := responses, logs := smsLogs body responses }

/-- The HTTP POST request `send_pushover` issues (`__init__.py` lines
267-278): fixed URL, form-encoded payload fields and content type. -/
structure PushoverRequest where
  url : String
  token : Option String
  user : Option String
  message : String
  sound : String
  content_type : String
deriving DecidableEq, Repr

/-- The response `send_pushover` inspects: the HTTP status code and the
provider-supplied `error` field of the JSON body (`res.json().get("error")`). -/
structure HttpResponse where
  status_code : Nat
  error_field : Option String
deriving DecidableEq, Repr

/-- Credential resolution of `send_pushover` for the user key
(`__init__.py` lines 255-259). -/
def pushoverUserKey (user_key : Option String) (env : String → Option String) :
    Option String :=
  match user_key with
  | none => env "PUSHOVER_USER_KEY"
  | some u => some u

/-- Credential resolution of `send_pushover` for the API token
(`__init__.py` lines 261-265). -/
def pushoverApiToken (api_token : Option String) (env : String → Option String) :
    Option String :=
  match api_token with
  | none => env "PUSHOVER_API_KEY"
  | some a => some a

/-- The request `send_pushover` builds after credential resolution. -/
def pushoverRequest (message : String) (api_token user_key : Option String)
    (env : String → Option String) : PushoverRequest :=
  { url := "https://api.pushover.net/1/messages.json",
    token := pushoverApiToken api_token env,
    user := pushoverUserKey user_key env,
    message := message,
    sound := "bugle",
    content_type := "application/x-www-form-urlencoded" }

/-- The debug logs recording where each Pushover credential came from
(`__init__.py` lines 255-265). -/
def pushoverCredLogs (api_token user_key : Option String) : List LogEntry :=
  (match user_key with
   | none => [LogEntry.debug "Using Pushover user key from environment variables."]
   | some _ => [LogEntry.debug "Using Pushover user key provided via input parameter."]) ++
  (match api_token with
   | none => [LogEntry.debug "Using Pushover API token from environment variables."]
   | some _ => [LogEntry.debug "Using Pushover API token provided via input parameter."])

/-- The `logging.error` text of `send_pushover` on a non-200 response
(`__init__.py` lines 281-284). -/
def pushoverFailureMsg (res : HttpResponse) : String :=
  "Pushover API encountered an error, returned status code "
    ++ toString res.status_code ++ ": " ++ res.error_field.getD "None"

/-- Model of `send_pushover` (`__init__.py` lines 233-289): resolve the two
credentials (explicit first, else environment), issue one POST, classify by
`status_code != 200` (`requests.codes.ok` is 200) for logging, and return
the raw response. -/
def send_pushover (post : PushoverRequest → HttpResponse) (message : String)
    (api_token user_key : Option String) (env : String → Option String) :
    HttpResponse × List LogEntry :=
  let res := post (pushoverRequest message api_token user_key env)
  let logs := pushoverCredLogs api_token user_key ++
    (if res.status_code ≠ 200 then [LogEntry.error (pushoverFailureMsg res)]
     else [LogEntry.debug "Message successfully sent via Pushover."])
  (res, logs)

/-- A concrete environment for exercising `send_sms` with both Azure
configuration keys present. -/
def exampleSmsEnv : String → Option String := fun k =>
  if k = "AZURE_SMS_CONNECTION_STRING" then some "endpoint-cs"
  else if k = "AZURE_SMS_NUMBER" then some "4255550100" else none

/-- A concrete SMS transport returning one successful per-recipient result. -/
def exampleSmsTransport : SmsTransport := fun _ _ _ _ =>
  [{ to_number := "+15551234567", successful := true, error_message := none }]

/-- The outcome `send_sms exampleSmsTransport "b" (some (.list ["5551234567"]))
exampleSmsEnv` produces. -/
def exampleSmsOutcome : SmsOutcome :=
  { conn := "endpoint-cs", from_number := "+14255550100",
    to_recips := .list ["+15551234567"],
    responses := [{ to_number := "+15551234567", successful := true, error_message := none }],
    logs := [LogEntry.debug "SMS Message b successfully sent to +15551234567."] }

/-- A concrete HTTP poster always answering 200 with no error field. -/
def examplePushoverPost : PushoverRequest → HttpResponse := fun _ =>
  { status_code := 200, error_field := none }

-- ### Bridge lemmas for digit extraction

theorem listJoin_nil : listJoin [] = [] := rfl

theorem listJoin_cons (l : List Char) (ls : List (List Char)) :
    listJoin (l :: ls) = l ++ listJoin ls := rfl

/-- Joining the digit runs (with accumulator `acc`) yields `acc` followed by
the digit characters of the remaining input, in order. -/
theorem listJoin_digitRunsAux (cs : List Char) :
    ∀ acc, listJoin (digitRunsAux cs acc) = acc ++ cs.filter (·.isDigit) := by
  induction cs with
  | nil =>
    intro acc
    by_cases h : acc = [] <;>
      simp [digitRunsAux, h, listJoin]
  | cons c rest ih =>
    intro acc
    by_cases hd : c.isDigit
    · have h1 : digitRunsAux (c :: rest) acc = digitRunsAux rest (acc ++ [c]) := by
        simp [digitRunsAux, hd]
      rw [h1, ih, List.filter_cons]
      simp [hd]
    · have hd' : (c.isDigit : Bool) = false := by
        simpa using hd
      by_cases h : acc = []
      · have h1 : digitRunsAux (c :: rest) acc = digitRunsAux rest [] := by
          simp [digitRunsAux, hd', h]
        rw [h1, ih, List.filter_cons]
        simp [hd', h]
      · have h1 : digitRunsAux (c :: rest) acc = [acc] ++ digitRunsAux rest [] := by
          simp [digitRunsAux, hd', h]
        have h2 : listJoin ([acc] ++ digitRunsAux rest []) =
            acc ++ listJoin (digitRunsAux rest []) := by
          simp [listJoin]
        rw [h1, h2, ih, List.filter_cons]
        simp [hd']

/-- The concatenation of all maximal digit runs is exactly the digit
characters of the input, in order. -/
theorem listJoin_digitRuns (cs : List Char) :
    listJoin (digitRuns cs) = cs.filter (·.isDigit) := by
  simpa using listJoin_digitRunsAux cs []

/-- There are no digit runs exactly when (the accumulator is empty and) the
input has no digit characters. -/
theorem digitRunsAux_eq_nil (cs : List Char) :
    ∀ acc, digitRunsAux cs acc = [] ↔ (acc = [] ∧ cs.filter (·.isDigit) = []) := by
  induction cs with
  | nil =>
    intro acc
    by_cases h : acc = [] <;> simp [digitRunsAux, h]
  | cons c rest ih =>
    intro acc
    by_cases hd : c.isDigit
    · have hne : acc ++ [c] ≠ [] := by simp
      have h1 : digitRunsAux (c :: rest) acc = digitRunsAux rest (acc ++ [c]) := by
        simp [digitRunsAux, hd]
      rw [h1, ih, List.filter_cons]
      simp [hd, hne]
    · have hd' : (c.isDigit : Bool) = false := by simpa using hd
      by_cases h : acc = []
      · have h1 : digitRunsAux (c :: rest) acc = digitRunsAux rest [] := by
          simp [digitRunsAux, hd', h]
        rw [h1, ih, List.filter_cons]
        simp [hd', h]
      · have h1 : digitRunsAux (c :: rest) acc = [acc] ++ digitRunsAux rest [] := by
          simp [digitRunsAux, hd', h]
        rw [h1, List.filter_cons]
        simp [hd', h]

theorem digitRuns_eq_nil (cs : List Char) :
    digitRuns cs = [] ↔ cs.filter (·.isDigit) = [] := by
  simpa [digitRuns] using digitRunsAux_eq_nil cs []

theorem digitConcat_eq_filter (s : String) :
    digitConcat s = s.data.filter (·.isDigit) := by
  simp [digitConcat, listJoin_digitRuns]

-- ### Characterization of `_validate_phone_number`

theorem str_length_eq (s : String) : s.length = s.data.length := rfl

/-- On an input containing at least one digit, `_validate_phone_number`
works on the concatenation of the digit runs (= the digit characters of the
input, in order). -/
theorem validate_of_digits (s : String) (h : s.data.filter (·.isDigit) ≠ []) :
    _validate_phone_number s =
      (if (s.data.filter (·.isDigit)).length < 10 ∨ (s.data.filter (·.isDigit)).length > 12 then
        .error (.invalidPhoneNumber (String.mk (s.data.filter (·.isDigit))))
      else
        .ok (String.mk ('+' :: (if (s.data.filter (·.isDigit)).length = 10
          then '1' :: s.data.filter (·.isDigit) else s.data.filter (·.isDigit))))) := by
  have hruns : digitRuns s.data ≠ [] := by
    rw [Ne, digitRuns_eq_nil]
    exact h
  have hlen : (digitRuns s.data).length ≠ 0 := by
    simpa [List.length_eq_zero] using hruns
  simp only [_validate_phone_number]
  rw [if_pos hlen, listJoin_digitRuns]

/-- On an input containing no digit at all, `_validate_phone_number` keeps
the RAW input and length-checks that instead. -/
theorem validate_of_no_digits (s : String) (h : s.data.filter (·.isDigit) = []) :
    _validate_phone_number s =
      (if s.data.length < 10 ∨ s.data.length > 12 then
        .error (.invalidPhoneNumber s)
      else
        .ok (String.mk ('+' :: (if s.data.length = 10 then '1' :: s.data else s.data)))) := by
  have hruns : digitRuns s.data = [] := (digitRuns_eq_nil _).mpr h
  have hlen : ¬((digitRuns s.data).length ≠ 0) := by simp [hruns]
  simp only [_validate_phone_number]
  rw [if_neg hlen]

theorem filter_ne_nil_of_any (l : List Char) (h : l.any (·.isDigit) = true) :
    l.filter (·.isDigit) ≠ [] := by
  rw [List.any_eq_true] at h
  obtain ⟨x, hx, hpx⟩ := h
  intro hnil
  rw [List.filter_eq_nil_iff] at hnil
  exact (hnil x hx) hpx

theorem filter_eq_nil_of_not_any (l : List Char) (h : l.any (·.isDigit) = false) :
    l.filter (·.isDigit) = [] := by
  rw [List.any_eq_false] at h
  rw [List.filter_eq_nil_iff]
  exact h

theorem isCanonicalPhone_mk_plus (t : List Char) :
    isCanonicalPhone (String.mk ('+' :: t)) =
      (t.all (·.isDigit) && decide (11 ≤ t.length) && decide (t.length ≤ 12)) := rfl

theorem digitConcat_all_digits (s : String) : ∀ c ∈ digitConcat s, c.isDigit := by
  intro c hc
  rw [digitConcat_eq_filter] at hc
  exact List.of_mem_filter hc

/-- Success shape of `_validate_phone_number` when the digit concatenation
has length 10 to 12. -/
theorem validate_ok_of_inrange (s : String)
    (h10 : 10 ≤ (digitConcat s).length) (h12 : (digitConcat s).length ≤ 12) :
    _validate_phone_number s =
      .ok (String.mk ('+' :: (if (digitConcat s).length = 10
        then '1' :: digitConcat s else digitConcat s))) := by
  have hfe := digitConcat_eq_filter s
  have hne : s.data.filter (·.isDigit) ≠ [] := by
    intro hnil
    rw [hfe, hnil] at h10
    simp at h10
  have hc : ¬((s.data.filter (·.isDigit)).length < 10 ∨
      (s.data.filter (·.isDigit)).length > 12) := by
    rw [← hfe]
    omega
  rw [validate_of_digits s hne, if_neg hc, ← hfe]

/-- A `+` followed by 11 or 12 digit characters is canonical. -/
theorem plusDigits_canonical (t : List Char) (hall : ∀ c ∈ t, c.isDigit)
    (h11 : 11 ≤ t.length) (h12 : t.length ≤ 12) :
    isCanonicalPhone (String.mk ('+' :: t)) = true := by
  rw [isCanonicalPhone_mk_plus, Bool.and_eq_true, Bool.and_eq_true]
  refine ⟨⟨?_, ?_⟩, ?_⟩
  · rw [List.all_eq_true]
    exact hall
  · simp only [decide_eq_true_eq]
    omega
  · simp only [decide_eq_true_eq]
    omega

/-- Every error `_validate_phone_number` produces is an `invalidPhoneNumber`. -/
theorem validate_error_shape (s : String) (e : MsgError)
    (h : _validate_phone_number s = .error e) : ∃ n, e = .invalidPhoneNumber n := by
  by_cases hd : s.data.filter (·.isDigit) = []
  · rw [validate_of_no_digits s hd] at h
    by_cases hc : s.data.length < 10 ∨ s.data.length > 12
    · rw [if_pos hc] at h
      exact ⟨_, (Except.error.inj h).symm⟩
    · rw [if_neg hc] at h
      exact Except.noConfusion h
  · rw [validate_of_digits s hd] at h
    by_cases hc : (s.data.filter (·.isDigit)).length < 10 ∨
        (s.data.filter (·.isDigit)).length > 12
    · rw [if_pos hc] at h
      exact ⟨_, (Except.error.inj h).symm⟩
    · rw [if_neg hc] at h
      exact Except.noConfusion h

-- ### Lemmas about `mapMExcept` and recipient normalization

theorem mapMExcept_error_of_exists {ε α β : Type} (f : α → Except ε β) (l : List α)
    (h : ∃ x ∈ l, ∃ e, f x = .error e) : ∃ e, mapMExcept f l = .error e := by
  induction l with
  | nil =>
    obtain ⟨x, hx, -⟩ := h
    exact absurd hx (List.not_mem_nil x)
  | cons a as ih =>
    obtain ⟨x, hx, e, hfe⟩ := h
    by_cases hfa : ∃ ea, f a = .error ea
    · obtain ⟨ea, hea⟩ := hfa
      exact ⟨ea, by simp [mapMExcept, hea]⟩
    · rcases List.mem_cons.mp hx with rfl | hmem
      · exact absurd ⟨e, hfe⟩ hfa
      · obtain ⟨e', he'⟩ := ih ⟨x, hmem, e, hfe⟩
        cases hfa' : f a with
        | error ea => exact absurd ⟨ea, hfa'⟩ hfa
        | ok y => exact ⟨e', by simp [mapMExcept, hfa', he', Except.map]⟩

theorem mapMExcept_error_mem {ε α β : Type} (f : α → Except ε β) (l : List α) (e : ε)
    (h : mapMExcept f l = .error e) : ∃ x ∈ l, f x = .error e := by
  induction l with
  | nil => exact Except.noConfusion h
  | cons a as ih =>
    simp only [mapMExcept] at h
    cases hfa : f a with
    | error ea =>
      rw [hfa] at h
      exact ⟨a, List.mem_cons_self a as, by rw [hfa, Except.error.inj h]⟩
    | ok y =>
      rw [hfa] at h
      cases hm : mapMExcept f as with
      | error e' =>
        rw [hm] at h
        simp only [Except.map] at h
        have he := Except.error.inj h
        subst he
        obtain ⟨x, hx, hfx⟩ := ih hm
        exact ⟨x, List.mem_cons_of_mem a hx, hfx⟩
      | ok ys =>
        rw [hm] at h
        simp only [Except.map] at h
        exact Except.noConfusion h

/-- Every error `normalizeRecipients` produces comes from
`_validate_phone_number` and is an `invalidPhoneNumber`. -/
theorem normalizeRecipients_error_shape (r : Recipients) (e : MsgError)
    (h : normalizeRecipients r = .error e) : ∃ n, e = .invalidPhoneNumber n := by
  cases r with
  | str s =>
    simp only [normalizeRecipients] at h
    cases hv : _validate_phone_number s with
    | error e' =>
      rw [hv] at h
      simp only [Except.map] at h
      rw [← Except.error.inj h]
      exact validate_error_shape s e' hv
    | ok v =>
      rw [hv] at h
      simp only [Except.map] at h
      exact Except.noConfusion h
  | list l =>
    simp only [normalizeRecipients] at h
    cases hm : mapMExcept _validate_phone_number l with
    | error e' =>
      rw [hm] at h
      simp only [Except.map] at h
      obtain ⟨x, hx, hfx⟩ := mapMExcept_error_mem _ _ _ hm
      rw [← Except.error.inj h]
      exact validate_error_shape x e' hfx
    | ok v =>
      rw [hm] at h
      simp only [Except.map] at h
      exact Except.noConfusion h

-- ### Claims

/-- Claim C1 (corrected), counterexample to the claim as stated: the input
"abcdefghij" contains no digit character, so its digit concatenation is
empty (length 0, outside 10..12), yet `normalize` does NOT fail: the raw
string survives the extraction step, passes the 10..12 length gate, and the
call succeeds with "+1abcdefghij". -/
theorem c1_counterexample :
    _validate_phone_number "abcdefghij" = .ok "+1abcdefghij" ∧
    (digitConcat "abcdefghij").length = 0 := by decide

/-- Claim C1, amended: for inputs containing at least one digit, a digit
concatenation of length outside 10..12 makes `normalize` fail with
`InvalidPhoneNumber` (carrying the digit concatenation); for inputs with no
digit at all, the RAW input is length-checked instead, so such inputs fail
exactly when their own length is outside 10..12; conversely `normalize`
never fails when the digit concatenation has length 10 to 12. -/
theorem c1_amended_length_gate (s : String) :
    (s.data.any (·.isDigit) = true →
      ((digitConcat s).length < 10 ∨ (digitConcat s).length > 12) →
      _validate_phone_number s = .error (.invalidPhoneNumber (String.mk (digitConcat s)))) ∧
    (s.data.any (·.isDigit) = false →
      (_validate_phone_number s = .error (.invalidPhoneNumber s) ↔
        (s.length < 10 ∨ s.length > 12))) ∧
    (10 ≤ (digitConcat s).length → (digitConcat s).length ≤ 12 →
      ∃ r, _validate_phone_number s = .ok r) := by
  refine ⟨?_, ?_, ?_⟩
  · intro hany hrange
    rw [digitConcat_eq_filter] at hrange ⊢
    rw [validate_of_digits s (filter_ne_nil_of_any _ hany), if_pos hrange]
  · intro hany
    rw [validate_of_no_digits s (filter_eq_nil_of_not_any _ hany), str_length_eq]
    by_cases hc : s.data.length < 10 ∨ s.data.length > 12
    · rw [if_pos hc]
      exact iff_of_true rfl hc
    · rw [if_neg hc]
      exact iff_of_false (fun h => Except.noConfusion h) hc
  · intro h10 h12
    rw [validate_ok_of_inrange s h10 h12]
    exact ⟨_, rfl⟩

/-- Witness for C1 amended, at "1-800-FLOWERS": the extracted digits are
"1800", of length 4 < 10, so the call fails with `InvalidPhoneNumber`. -/
theorem c1_amended_length_gate_witness :
    _validate_phone_number "1-800-FLOWERS" =
      .error (.invalidPhoneNumber (String.mk (digitConcat "1-800-FLOWERS"))) :=
  (c1_amended_length_gate "1-800-FLOWERS").1 (by decide) (by decide)

/-- Claim C2: whenever the digit concatenation `d` of the input has length
10, 11 or 12, `normalize` succeeds, returning exactly "+1" ++ d when
`length d = 10` and "+" ++ d when it is 11 or 12, and in both cases the
result matches the canonical shape (a leading `+` followed by 11 or 12
digits and nothing else). -/
theorem c2_normalize_success_shape (s : String)
    (h10 : 10 ≤ (digitConcat s).length) (h12 : (digitConcat s).length ≤ 12) :
    _validate_phone_number s =
      .ok (String.mk (if (digitConcat s).length = 10
        then '+' :: '1' :: digitConcat s else '+' :: digitConcat s)) ∧
    isCanonicalPhone (String.mk (if (digitConcat s).length = 10
        then '+' :: '1' :: digitConcat s else '+' :: digitConcat s)) = true := by
  constructor
  · rw [validate_ok_of_inrange s h10 h12]
    congr 1
    by_cases hl : (digitConcat s).length = 10 <;> simp [hl]
  · by_cases hl : (digitConcat s).length = 10
    · rw [if_pos hl]
      refine plusDigits_canonical _ ?_ ?_ ?_
      · intro c hc
        rcases List.mem_cons.mp hc with h1 | h1
        · rw [h1]; decide
        · exact digitConcat_all_digits s c h1
      · simp only [List.length_cons]
        omega
      · simp only [List.length_cons]
        omega
    · rw [if_neg hl]
      exact plusDigits_canonical _ (digitConcat_all_digits s) (by omega) (by omega)

/-- Witness for C2 at "555-123-4567" (10 digits). -/
theorem c2_normalize_success_shape_witness :
    _validate_phone_number "555-123-4567" =
      .ok (String.mk (if (digitConcat "555-123-4567").length = 10
        then '+' :: '1' :: digitConcat "555-123-4567"
        else '+' :: digitConcat "555-123-4567")) ∧
    isCanonicalPhone (String.mk (if (digitConcat "555-123-4567").length = 10
        then '+' :: '1' :: digitConcat "555-123-4567"
        else '+' :: digitConcat "555-123-4567")) = true :=
  c2_normalize_success_shape "555-123-4567" (by decide) (by decide)

/-- Claim C3 (corrected), counterexample to the claim as stated: the caller
supplies an explicit sender "alice" but no password, while the environment
holds GMAIL_USERNAME = "bob" and GMAIL_PASSWORD = "pw"; the send uses
sender "bob" from the environment, not the explicit "alice" — explicit
values do NOT take priority per field. -/
theorem c3_counterexample :
    send_gmail (.list ["rcpt"]) "hello" none (some "alice") none
        (fun k => if k = "GMAIL_USERNAME" then some "bob"
          else if k = "GMAIL_PASSWORD" then some "pw" else none) =
      .ok ({ smtp_host := "smtp.gmail.com", sender := some "bob", password := some "pw",
             recipients := .list ["rcpt"], body := "hello", subject := none,
             smtp_port := 465 }, []) ∧
    (some "bob" : Option String) ≠ some "alice" := by decide

/-- Claim C3, amended: explicit credentials take priority over the
environment only when BOTH sender and password are supplied; if either is
absent, both fields are resolved from GMAIL_USERNAME / GMAIL_PASSWORD and
any one-sided explicit value is discarded. -/
theorem c3_amended_credential_priority (recipients : Recipients) (body : String)
    (subject : Option String) (sender password : Option String)
    (env : String → Option String) (call : EmailCall) (logs : List LogEntry)
    (h : send_gmail recipients body subject sender password env = .ok (call, logs)) :
    (sender.isSome = true → password.isSome = true →
      call.sender = sender ∧ call.password = password) ∧
    (sender.isSome = false ∨ password.isSome = false →
      call.sender = env "GMAIL_USERNAME" ∧ call.password = env "GMAIL_PASSWORD") := by
  simp only [send_gmail] at h
  have h' := Except.ok.inj h
  rw [Prod.mk.injEq] at h'
  obtain ⟨hc, -⟩ := h'
  subst hc
  constructor
  · intro hs hp
    have hexp : (sender.isSome && password.isSome) = true := by rw [hs, hp]; rfl
    simp [hexp]
  · intro hor
    have hexp : (sender.isSome && password.isSome) = false := by
      rcases hor with h1 | h1 <;> simp [h1]
    simp [hexp]

/-- Witness for C3 amended: both credentials supplied explicitly, empty
environment — the explicit pair is used. -/
theorem c3_amended_credential_priority_witness :
    ((some "a" : Option String).isSome = true → (some "p" : Option String).isSome = true →
      ({ smtp_host := "smtp.gmail.com", sender := some "a", password := some "p",
         recipients := Recipients.str "r", body := "b", subject := none,
         smtp_port := 465 } : EmailCall).sender = some "a" ∧
      ({ smtp_host := "smtp.gmail.com", sender := some "a", password := some "p",
         recipients := Recipients.str "r", body := "b", subject := none,
         smtp_port := 465 } : EmailCall).password = some "p") ∧
    ((some "a" : Option String).isSome = false ∨ (some "p" : Option String).isSome = false →
      ({ smtp_host := "smtp.gmail.com", sender := some "a", password := some "p",
         recipients := Recipients.str "r", body := "b", subject := none,
         smtp_port := 465 } : EmailCall).sender = (fun _ => (none : Option String)) "GMAIL_USERNAME" ∧
      ({ smtp_host := "smtp.gmail.com", sender := some "a", password := some "p",
         recipients := Recipients.str "r", body := "b", subject := none,
         smtp_port := 465 } : EmailCall).password = (fun _ => (none : Option String)) "GMAIL_PASSWORD") :=
  c3_amended_credential_priority (.str "r") "b" none (some "a") (some "p")
    (fun _ => none)
    { smtp_host := "smtp.gmail.com", sender := some "a", password := some "p",
      recipients := Recipients.str "r", body := "b", subject := none,
      smtp_port := 465 }
    [LogEntry.debug "Sending GMail using sender and password provided as arguments."]
    (by decide)

/-- Claim C4: `send_gmail` is fail-soft — when neither the explicit
arguments nor the GMAIL_USERNAME/GMAIL_PASSWORD configuration yield both
credentials, it does not raise (the result is `.ok`, never
`MissingCredentials`): it logs an error and still delegates to `send_email`
with host smtp.gmail.com and port 465, passing the absent environment
values through. -/
theorem c4_gmail_fail_soft (recipients : Recipients) (body : String)
    (subject : Option String) (sender password : Option String)
    (env : String → Option String)
    (h1 : sender = none ∨ password = none)
    (h2 : env "GMAIL_USERNAME" = none ∨ env "GMAIL_PASSWORD" = none) :
    send_gmail recipients body subject sender password env =
      .ok ({ smtp_host := "smtp.gmail.com", sender := env "GMAIL_USERNAME",
             password := env "GMAIL_PASSWORD", recipients := recipients,
             body := body, subject := subject, smtp_port := 465 },
           [LogEntry.error gmailMissingCredsMsg]) := by
  have hexp : (sender.isSome && password.isSome) = false := by
    rcases h1 with h | h <;> simp [h]
  have hmiss : ((env "GMAIL_USERNAME").isNone || (env "GMAIL_PASSWORD").isNone) = true := by
    rcases h2 with h | h <;> simp [h]
  simp [send_gmail, hexp, hmiss]

/-- Witness for C4: no explicit credentials, empty environment. -/
theorem c4_gmail_fail_soft_witness :
    send_gmail (.str "r") "b" none none none (fun _ => none) =
      .ok ({ smtp_host := "smtp.gmail.com", sender := none, password := none,
             recipients := .str "r", body := "b", subject := none, smtp_port := 465 },
           [LogEntry.error gmailMissingCredsMsg]) :=
  c4_gmail_fail_soft (.str "r") "b" none none none (fun _ => none)
    (Or.inl rfl) (Or.inl rfl)

/-- Claim C5: if the recipient list contains a number whose normalization
fails, the whole `send_sms` call fails with `InvalidPhoneNumber`, and the
result is the same for EVERY transport — the transport is never contacted
(no client creation, no send, no partial dispatch). -/
theorem c5_sms_no_partial_dispatch (body : String) (l : List String)
    (env : String → Option String)
    (h : ∃ x ∈ l, ∃ e, _validate_phone_number x = .error e) :
    ∃ n, ∀ transport : SmsTransport,
      send_sms transport body (some (.list l)) env =
        .error (.invalidPhoneNumber n) := by
  obtain ⟨e, he⟩ := mapMExcept_error_of_exists _ _ h
  have hn : normalizeRecipients (.list l) = .error e := by
    simp [normalizeRecipients, he, Except.map]
  obtain ⟨n, hn'⟩ := normalizeRecipients_error_shape _ _ hn
  subst hn'
  refine ⟨n, fun transport => ?_⟩
  simp [send_sms, resolveRecipients, hn]

/-- Witness for C5: one valid and one malformed recipient. -/
theorem c5_sms_no_partial_dispatch_witness :
    ∃ n, ∀ transport : SmsTransport,
      send_sms transport "hi" (some (.list ["5551234567", "123"])) (fun _ => none) =
        .error (.invalidPhoneNumber n) :=
  c5_sms_no_partial_dispatch "hi" ["5551234567", "123"] (fun _ => none)
    ⟨"123", by decide, .invalidPhoneNumber "123", by decide⟩

/-- Claim C6: `send_sms` determines recipients from the explicit argument
when present, else from the SMS_NUMBER configuration value, and fails with
`MissingRecipients` exactly when both sources are absent. -/
theorem c6_sms_recipient_resolution (transport : SmsTransport) (body : String)
    (recipients : Option Recipients) (env : String → Option String) :
    (∀ r, recipients = some r → resolveRecipients recipients env = some r) ∧
    (recipients = none →
      resolveRecipients recipients env = (env "SMS_NUMBER").map .str) ∧
    (send_sms transport body recipients env = .error .missingRecipients ↔
      recipients = none ∧ env "SMS_NUMBER" = none) := by
  refine ⟨?_, ?_, ?_⟩
  · intro r hr
    subst hr
    rfl
  · intro hr
    subst hr
    rfl
  · have hres : resolveRecipients recipients env = none ↔
        (recipients = none ∧ env "SMS_NUMBER" = none) := by
      cases recipients with
      | some r => simp [resolveRecipients]
      | none => cases he : env "SMS_NUMBER" <;> simp [resolveRecipients, he]
    rw [← hres]
    constructor
    · intro h
      cases hr : resolveRecipients recipients env with
      | none => rfl
      | some recips =>
        exfalso
        simp only [send_sms, hr] at h
        cases hn : normalizeRecipients recips with
        | error e =>
          simp only [hn] at h
          obtain ⟨n, rfl⟩ := normalizeRecipients_error_shape _ _ hn
          exact MsgError.noConfusion (Except.error.inj h)
        | ok normalized =>
          simp only [hn] at h
          cases hc : env "AZURE_SMS_CONNECTION_STRING" with
          | none =>
            simp only [hc] at h
            exact MsgError.noConfusion (Except.error.inj h)
          | some conn =>
            simp only [hc] at h
            cases hnum : env "AZURE_SMS_NUMBER" with
            | none =>
              simp only [hnum] at h
              exact MsgError.noConfusion (Except.error.inj h)
            | some num =>
              simp only [hnum] at h
              cases hv : _validate_phone_number num with
              | error e =>
                simp only [hv] at h
                obtain ⟨n, rfl⟩ := validate_error_shape _ _ hv
                exact MsgError.noConfusion (Except.error.inj h)
              | ok f =>
                simp only [hv] at h
                exact Except.noConfusion h
    · intro h
      simp [send_sms, h]

/-- Witness for C6: no explicit recipients and no SMS_NUMBER — the call
fails with `MissingRecipients`. -/
theorem c6_sms_recipient_resolution_witness :
    send_sms (fun _ _ _ _ => []) "b" none (fun _ => none) =
      .error .missingRecipients :=
  ((c6_sms_recipient_resolution (fun _ _ _ _ => []) "b" none
    (fun _ => none)).2.2).mpr ⟨rfl, rfl⟩

/-- Claim C7: `send_sms` is fail-hard on credentials — for any call whose
recipients resolve and normalize successfully, an absent
AZURE_SMS_CONNECTION_STRING makes it fail with `MissingCredentials` naming
the connection string, an absent AZURE_SMS_NUMBER with `MissingCredentials`
naming the Azure SMS number; both failures are identical for every
transport (no transport contact); and when the call succeeds, the sender
(from) number it used is exactly the output of the phone-number normalizer
on the AZURE_SMS_NUMBER value. -/
theorem c7_sms_fail_hard_credentials (body : String) (recipients : Option Recipients)
    (env : String → Option String) (recips normalized : Recipients)
    (hres : resolveRecipients recipients env = some recips)
    (hnorm : normalizeRecipients recips = .ok normalized) :
    (env "AZURE_SMS_CONNECTION_STRING" = none →
      ∀ transport : SmsTransport, send_sms transport body recipients env =
        .error (.missingCredentials smsConnMissingMsg)) ∧
    (∀ conn, env "AZURE_SMS_CONNECTION_STRING" = some conn →
      env "AZURE_SMS_NUMBER" = none →
      ∀ transport : SmsTransport, send_sms transport body recipients env =
        .error (.missingCredentials smsNumberMissingMsg)) ∧
    (∀ num, env "AZURE_SMS_NUMBER" = some num →
      ∀ (transport : SmsTransport) (out : SmsOutcome),
        send_sms transport body recipients env = .ok out →
        _validate_phone_number num = .ok out.from_number) := by
  refine ⟨?_, ?_, ?_⟩
  · intro hc transport
    simp [send_sms, hres, hnorm, hc]
  · intro conn hc hnum transport
    simp [send_sms, hres, hnorm, hc, hnum]
  · intro num hnum transport out h
    simp only [send_sms, hres, hnorm] at h
    cases hc : env "AZURE_SMS_CONNECTION_STRING" with
    | none =>
      simp only [hc] at h
      exact Except.noConfusion h
    | some conn =>
      simp only [hc, hnum] at h
      cases hv : _validate_phone_number num with
      | error e =>
        simp only [hv] at h
        exact Except.noConfusion h
      | ok f =>
        simp only [hv] at h
        have hout := Except.ok.inj h
        rw [← hout]

/-- Witness for C7: a resolvable, normalizable recipient with an empty
environment — the call fails naming the missing connection string. -/
theorem c7_sms_fail_hard_credentials_witness :
    send_sms (fun _ _ _ _ => []) "b" (some (.str "5551234567")) (fun _ => none) =
      .error (.missingCredentials smsConnMissingMsg) :=
  (c7_sms_fail_hard_credentials "b" (some (.str "5551234567")) (fun _ => none)
    (.str "5551234567") (.str "+15551234567") rfl (by decide)).1 rfl
    (fun _ _ _ _ => [])

/-- Claim C8: when a `send_sms` call reaches the transport, the transport's
result sequence is returned to the caller unmodified (one transport call,
regardless of how many entries are unsuccessful); every unsuccessful entry
contributes an error log (not a raise — the call still returns `.ok`); and
whenever the transport fulfills the per-recipient order-preserving contract
of the SmsTransport capability, the returned sequence carries one entry per
normalized recipient in input order. -/
theorem c8_sms_results_passthrough (transport : SmsTransport) (body : String)
    (recipients : Option Recipients) (env : String → Option String)
    (out : SmsOutcome)
    (h : send_sms transport body recipients env = .ok out) :
    out.responses = transport out.conn out.from_number out.to_recips body ∧
    out.logs = smsLogs body out.responses ∧
    (∀ r ∈ out.responses, r.successful = false →
      LogEntry.error ("Encountered error while sending SMS message to " ++ r.to_number
        ++ ": " ++ r.error_message.getD "None") ∈ out.logs) ∧
    (∀ nl : List String, out.to_recips = .list nl →
      (transport out.conn out.from_number (.list nl) body).map SmsSendResult.to_number = nl →
      out.responses.map SmsSendResult.to_number = nl) := by
  cases hr : resolveRecipients recipients env with
  | none =>
    rw [send_sms, hr] at h
    exact Except.noConfusion h
  | some recips =>
    simp only [send_sms, hr] at h
    cases hn : normalizeRecipients recips with
    | error e =>
      simp only [hn] at h
      exact Except.noConfusion h
    | ok normalized =>
      simp only [hn] at h
      cases hc : env "AZURE_SMS_CONNECTION_STRING" with
      | none =>
        simp only [hc] at h
        exact Except.noConfusion h
      | some conn =>
        simp only [hc] at h
        cases hnum : env "AZURE_SMS_NUMBER" with
        | none =>
          simp only [hnum] at h
          exact Except.noConfusion h
        | some num =>
          simp only [hnum] at h
          cases hv : _validate_phone_number num with
          | error e =>
            simp only [hv] at h
            exact Except.noConfusion h
          | ok f =>
            simp only [hv] at h
            have hout := (Except.ok.inj h).symm
            subst hout
            refine ⟨rfl, rfl, ?_, ?_⟩
            · intro r hrmem hrfail
              have hmem : (if r.successful then
                  LogEntry.debug ("SMS Message " ++ body ++ " successfully sent to "
                    ++ r.to_number ++ ".")
                else
                  LogEntry.error ("Encountered error while sending SMS message to "
                    ++ r.to_number ++ ": " ++ r.error_message.getD "None")) ∈
                  smsLogs body (transport conn f normalized body) :=
                List.mem_map_of_mem _ hrmem
              rw [hrfail] at hmem
              simpa using hmem
            · intro nl hto hmap
              simp only at hto
              rw [hto] at hmap ⊢
              exact hmap

/-- Witness for C8: a one-recipient call through `exampleSmsTransport` in
`exampleSmsEnv`, whose outcome is `exampleSmsOutcome`. -/
theorem c8_sms_results_passthrough_witness :
    exampleSmsOutcome.responses =
      exampleSmsTransport exampleSmsOutcome.conn exampleSmsOutcome.from_number
        exampleSmsOutcome.to_recips "b" ∧
    exampleSmsOutcome.logs = smsLogs "b" exampleSmsOutcome.responses ∧
    (∀ r ∈ exampleSmsOutcome.responses, r.successful = false →
      LogEntry.error ("Encountered error while sending SMS message to " ++ r.to_number
        ++ ": " ++ r.error_message.getD "None") ∈ exampleSmsOutcome.logs) ∧
    (∀ nl : List String, exampleSmsOutcome.to_recips = .list nl →
      (exampleSmsTransport exampleSmsOutcome.conn exampleSmsOutcome.from_number
        (.list nl) "b").map SmsSendResult.to_number = nl →
      exampleSmsOutcome.responses.map SmsSendResult.to_number = nl) :=
  c8_sms_results_passthrough exampleSmsTransport "b"
    (some (.list ["5551234567"])) exampleSmsEnv exampleSmsOutcome (by decide)

/-- Claim C9: `send_pushover` classifies the outcome purely by HTTP status
code — the raw response of the poster is returned unchanged; when its
status code is 200 the logs end with the success debug entry and contain no
error entry at all; when it is not 200 the logs end with an error entry
carrying the status code and the provider-supplied error field. -/
theorem c9_pushover_status_classification (post : PushoverRequest → HttpResponse)
    (message : String) (api_token user_key : Option String)
    (env : String → Option String) :
    (send_pushover post message api_token user_key env).1 =
      post (pushoverRequest message api_token user_key env) ∧
    ((post (pushoverRequest message api_token user_key env)).status_code = 200 →
      (send_pushover post message api_token user_key env).2 =
        pushoverCredLogs api_token user_key ++
          [LogEntry.debug "Message successfully sent via Pushover."] ∧
      ∀ m, LogEntry.error m ∉ (send_pushover post message api_token user_key env).2) ∧
    ((post (pushoverRequest message api_token user_key env)).status_code ≠ 200 →
      (send_pushover post message api_token user_key env).2 =
        pushoverCredLogs api_token user_key ++
          [LogEntry.error (pushoverFailureMsg
            (post (pushoverRequest message api_token user_key env)))]) := by
  have hcred : ∀ m, LogEntry.error m ∉ pushoverCredLogs api_token user_key := by
    intro m
    cases api_token <;> cases user_key <;> simp [pushoverCredLogs]
  refine ⟨rfl, ?_, ?_⟩
  · intro h200
    constructor
    · simp [send_pushover, h200]
    · intro m hm
      simp only [send_pushover, h200] at hm
      rw [List.mem_append] at hm
      rcases hm with hm | hm
      · exact hcred m hm
      · simp at hm
  · intro hne
    simp [send_pushover, hne]

/-- Witness for C9: a poster answering 200 — the classification is the
success debug entry. -/
theorem c9_pushover_status_classification_witness :
    (send_pushover examplePushoverPost "m" none none (fun _ => none)).2 =
      pushoverCredLogs none none ++
        [LogEntry.debug "Message successfully sent via Pushover."] :=
  (((c9_pushover_status_classification examplePushoverPost "m" none none
    (fun _ => none)).2.1) (by decide)).1

/-- Claim C10: the normalizer is idempotent on its successful outputs for
digit-bearing inputs — when the input contains a digit and its digit
concatenation has length 10 to 12, re-normalizing the normalizer's output
yields the same result as normalizing once. -/
theorem c10_normalize_idempotent (s : String)
    (hdig : s.data.any (·.isDigit) = true)
    (h10 : 10 ≤ (digitConcat s).length) (h12 : (digitConcat s).length ≤ 12) :
    (_validate_phone_number s).bind _validate_phone_number =
      _validate_phone_number s := by
  have hany := hdig
  clear hdig
  set t : List Char := if (digitConcat s).length = 10
    then '1' :: digitConcat s else digitConcat s with ht
  have hok' : _validate_phone_number s = .ok (String.mk ('+' :: t)) :=
    validate_ok_of_inrange s h10 h12
  have htall : ∀ c ∈ t, c.isDigit := by
    intro c hc
    rw [ht] at hc
    by_cases hl : (digitConcat s).length = 10
    · rw [if_pos hl] at hc
      rcases List.mem_cons.mp hc with h1 | h1
      · rw [h1]; decide
      · exact digitConcat_all_digits s c h1
    · rw [if_neg hl] at hc
      exact digitConcat_all_digits s c hc
  have htlen : 11 ≤ t.length ∧ t.length ≤ 12 := by
    rw [ht]
    by_cases hl : (digitConcat s).length = 10
    · rw [if_pos hl]
      simp only [List.length_cons]
      omega
    · rw [if_neg hl]
      omega
  have hfilt : (String.mk ('+' :: t)).data.filter (·.isDigit) = t := by
    show ('+' :: t).filter (·.isDigit) = t
    rw [List.filter_cons]
    have hplus : ('+'.isDigit : Bool) = false := by decide
    rw [hplus]
    simp only [Bool.false_eq_true, if_false]
    exact List.filter_eq_self.mpr (fun a ha => htall a ha)
  have hne : (String.mk ('+' :: t)).data.filter (·.isDigit) ≠ [] := by
    rw [hfilt]
    intro hnil
    rw [hnil] at htlen
    simp at htlen
  rw [hok']
  show _validate_phone_number (String.mk ('+' :: t)) = .ok (String.mk ('+' :: t))
  rw [validate_of_digits _ hne, hfilt]
  have hc1 : ¬(t.length < 10 ∨ t.length > 12) := by omega
  rw [if_neg hc1]
  have hc2 : ¬(t.length = 10) := by omega
  rw [if_neg hc2]

/-- Witness for C10 at "555-123-4567". -/
theorem c10_normalize_idempotent_witness :
    (_validate_phone_number "555-123-4567").bind _validate_phone_number =
      _validate_phone_number "555-123-4567" :=
  c10_normalize_idempotent "555-123-4567" (by decide) (by decide) (by decide)
